import Mathlib

/-!
Verification of the SparkFun SDP3x Arduino library (differential pressure
sensor driver).  The repository ships only the header
`SparkFun_SDP3x_Arduino_Library.h`: the command opcode constants, product
ids, default I2C address, the CRC-8 lookup table and the class declaration
live there and are embedded below verbatim.  The member-function bodies are
not part of the repository sources, so they are modelled from the design
specification; each such definition carries a doc comment starting
`Modelled from the spec:`.

Machine integers are modelled as `Nat` (bytes are values `< 256`, 16-bit
words values `< 65536`), signed 16-bit quantities as `Int`, and the float
arithmetic of the unit conversion as exact rational arithmetic over `ℚ`.
-/

/-- Status results of the driver (enum `SDP3XERR` in the header). -/
inductive SDP3XERR
  | SDP3X_SUCCESS
  | SDP3X_ERR_BAD_CRC
  | SDP3X_ERR_I2C_ERROR
  deriving DecidableEq, Repr

/-- Default I2C address (`SDP3x_default_i2c_address` in the header);
can be changed to 0x22 or 0x23 by changing the jumpers. -/
def SDP3x_default_i2c_address : Nat := 0x21

/-- Opcode `{0x36, 0x03}`: continuous measurement, mass flow temperature
compensation, averaging till read. -/
def SDP3x_measure_continuous_mass_flow_average_till_read : List Nat := [0x36, 0x03]

/-- Opcode `{0x36, 0x08}`: continuous measurement, mass flow temperature
compensation, no averaging. -/
def SDP3x_measure_continuous_mass_flow_no_averaging : List Nat := [0x36, 0x08]

/-- Opcode `{0x36, 0x15}`: continuous measurement, differential pressure
temperature compensation, averaging till read. -/
def SDP3x_measure_continuous_differential_pressure_average_till_read : List Nat := [0x36, 0x15]

/-- Opcode `{0x36, 0x1E}`: continuous measurement, differential pressure
temperature compensation, no averaging. -/
def SDP3x_measure_continuous_differential_pressure_no_averaging : List Nat := [0x36, 0x1E]

/-- Opcode `{0x3F, 0xF9}`: stop continuous measurement. -/
def SDP3x_stop_continuous_measure : List Nat := [0x3F, 0xF9]

/-- Opcode `{0x36, 0x24}`: triggered measurement, mass flow, no clock stretching. -/
def SDP3x_measure_triggered_mass_flow_no_clock_stretching : List Nat := [0x36, 0x24]

/-- Opcode `{0x37, 0x26}`: triggered measurement, mass flow, clock stretching. -/
def SDP3x_measure_triggered_mass_flow_clock_stretching : List Nat := [0x37, 0x26]

/-- Opcode `{0x36, 0x2F}`: triggered measurement, differential pressure, no clock stretching. -/
def SDP3x_measure_triggered_differential_pressure_no_clock_stretching : List Nat := [0x36, 0x2F]

/-- Opcode `{0x37, 0x2D}`: triggered measurement, differential pressure, clock stretching. -/
def SDP3x_measure_triggered_differential_pressure_clock_stretching : List Nat := [0x37, 0x2D]

/-- Opcode `{0x36, 0x77}`: enter sleep mode. -/
def SDP3x_enter_sleep_mode : List Nat := [0x36, 0x77]

/-- Opcode `{0x36, 0x7C}`: read product identifier, part 1. -/
def SDP3x_read_product_id_part1 : List Nat := [0x36, 0x7C]

/-- Opcode `{0xE1, 0x02}`: read product identifier, part 2. -/
def SDP3x_read_product_id_part2 : List Nat := [0xE1, 0x02]

/-- Product identifier of the SDP31 sensor. -/
def SDP3x_product_id_SDP31 : Nat := 0x03010101

/-- Product identifier of the SDP32 sensor. -/
def SDP3x_product_id_SDP32 : Nat := 0x03010201

/-- The 16×16 CRC-8 lookup table `_CRC8LookupTable` from the header
(256 entries, row-major). -/
def _CRC8LookupTable : List (List Nat) := [
  [0x00, 0x31, 0x62, 0x53, 0xC4, 0xF5, 0xA6, 0x97, 0xB9, 0x88, 0xDB, 0xEA, 0x7D, 0x4C, 0x1F, 0x2E],
  [0x43, 0x72, 0x21, 0x10, 0x87, 0xB6, 0xE5, 0xD4, 0xFA, 0xCB, 0x98, 0xA9, 0x3E, 0x0F, 0x5C, 0x6D],
  [0x86, 0xB7, 0xE4, 0xD5, 0x42, 0x73, 0x20, 0x11, 0x3F, 0x0E, 0x5D, 0x6C, 0xFB, 0xCA, 0x99, 0xA8],
  [0xC5, 0xF4, 0xA7, 0x96, 0x01, 0x30, 0x63, 0x52, 0x7C, 0x4D, 0x1E, 0x2F, 0xB8, 0x89, 0xDA, 0xEB],
  [0x3D, 0x0C, 0x5F, 0x6E, 0xF9, 0xC8, 0x9B, 0xAA, 0x84, 0xB5, 0xE6, 0xD7, 0x40, 0x71, 0x22, 0x13],
  [0x7E, 0x4F, 0x1C, 0x2D, 0xBA, 0x8B, 0xD8, 0xE9, 0xC7, 0xF6, 0xA5, 0x94, 0x03, 0x32, 0x61, 0x50],
  [0xBB, 0x8A, 0xD9, 0xE8, 0x7F, 0x4E, 0x1D, 0x2C, 0x02, 0x33, 0x60, 0x51, 0xC6, 0xF7, 0xA4, 0x95],
  [0xF8, 0xC9, 0x9A, 0xAB, 0x3C, 0x0D, 0x5E, 0x6F, 0x41, 0x70, 0x23, 0x12, 0x85, 0xB4, 0xE7, 0xD6],
  [0x7A, 0x4B, 0x18, 0x29, 0xBE, 0x8F, 0xDC, 0xED, 0xC3, 0xF2, 0xA1, 0x90, 0x07, 0x36, 0x65, 0x54],
  [0x39, 0x08, 0x5B, 0x6A, 0xFD, 0xCC, 0x9F, 0xAE, 0x80, 0xB1, 0xE2, 0xD3, 0x44, 0x75, 0x26, 0x17],
  [0xFC, 0xCD, 0x9E, 0xAF, 0x38, 0x09, 0x5A, 0x6B, 0x45, 0x74, 0x27, 0x16, 0x81, 0xB0, 0xE3, 0xD2],
  [0xBF, 0x8E, 0xDD, 0xEC, 0x7B, 0x4A, 0x19, 0x28, 0x06, 0x37, 0x64, 0x55, 0xC2, 0xF3, 0xA0, 0x91],
  [0x47, 0x76, 0x25, 0x14, 0x83, 0xB2, 0xE1, 0xD0, 0xFE, 0xCF, 0x9C, 0xAD, 0x3A, 0x0B, 0x58, 0x69],
  [0x04, 0x35, 0x66, 0x57, 0xC0, 0xF1, 0xA2, 0x93, 0xBD, 0x8C, 0xDF, 0xEE, 0x79, 0x48, 0x1B, 0x2A],
  [0xC1, 0xF0, 0xA3, 0x92, 0x05, 0x34, 0x67, 0x56, 0x78, 0x49, 0x1A, 0x2B, 0xBC, 0x8D, 0xDE, 0xEF],
  [0x82, 0xB3, 0xE0, 0xD1, 0x46, 0x77, 0x24, 0x15, 0x3B, 0x0A, 0x59, 0x68, 0xFF, 0xCE, 0x9D, 0xAC]]

/-- Entry of the 256-entry CRC table at index `x` (row `x / 16`, column
`x % 16`), as the C code indexes the two-dimensional array. -/
def tableAt (x : Nat) : Nat := (_CRC8LookupTable.getD (x / 16) []).getD (x % 16) 0

/-- Modelled from the spec: one bit-step of the bit-wise CRC-8 algorithm
(definition of `_CRC8` when `SDP3X_LOOKUP_TABLE` is undefined, whose body
is not in the repository sources): if the MSB of the 8-bit register is
set, shift left and XOR with the polynomial 0x31, else just shift left;
the register is masked to 8 bits after each step. -/
def crcRound (r : Nat) : Nat :=
  if 128 ≤ r % 256 then (((r % 256) * 2) ^^^ 0x31) % 256 else ((r % 256) * 2) % 256

/-- Modelled from the spec: processing of one input byte by the bit-wise
CRC-8 algorithm: XOR the byte into the register, then run 8 bit-steps. -/
def crcByte (r b : Nat) : Nat := crcRound^[8] ((r ^^^ b) % 256)

/-- Modelled from the spec: processing of one input byte by the
lookup-table CRC-8 variant: a single table access indexed by
`register XOR next_byte`. -/
def crcByteLookup (r b : Nat) : Nat := tableAt ((r ^^^ b) % 256)

/-- Modelled from the spec: the bit-wise CRC-8 of a 16-bit word: initial
register 0xFF, process the two big-endian bytes with `crcByte`. -/
def _CRC8bitwise (w : Nat) : Nat := crcByte (crcByte 0xFF (w / 256 % 256)) (w % 256)

/-- Modelled from the spec: the lookup-table CRC-8 of a 16-bit word:
initial register 0xFF, process the two big-endian bytes with
`crcByteLookup`. -/
def _CRC8lookup (w : Nat) : Nat := crcByteLookup (crcByteLookup 0xFF (w / 256 % 256)) (w % 256)

/-- Modelled from the spec: `SDP3X::_CRC8`.  The header defines
`SDP3X_LOOKUP_TABLE`, so the shipped configuration computes the CRC via
the lookup table. -/
def _CRC8 (w : Nat) : Nat := _CRC8lookup w

/-- Bit pattern (as a `Nat` below 65536) of a signed 16-bit integer:
two's-complement reinterpretation, the identity on non-negative values. -/
def toUInt16bits (i : Int) : Nat := (i % 65536).toNat

/-- Modelled from the spec: `SDP3X::_CRC8signed`, the signed entry point of
the CRC (used for the temperature word, which may be negative); the body is
not in the repository sources.  The spec requires the CRC to be computed
over the raw byte pattern, not the numeric interpretation, so the `int16`
argument is reinterpreted as its underlying 16-bit pattern and handed to
`_CRC8`. -/
def _CRC8signed (i : Int) : Nat := _CRC8 (toUInt16bits i)

/-- Signed (two's-complement) reading of a 16-bit word. -/
def wordToInt16 (w : Nat) : Int :=
  if w % 65536 < 32768 then ((w % 65536 : Nat) : Int) else ((w % 65536 : Nat) : Int) - 65536

/-- The 16-bit big-endian word assembled from two bytes. -/
def wordOf (hi lo : Nat) : Nat := (hi % 256) * 256 + lo % 256

/-- Modelled from the spec: `SDP3X::readMeasurement`, whose body is not in
the repository sources.  The response frame is three 16-bit big-endian
words — pressure, temperature, scale factor — each followed by its CRC-8
byte (9 bytes).  Each word's CRC is validated; on any mismatch the call
fails with `SDP3X_ERR_BAD_CRC` and no outputs are produced; on a frame of
the wrong size the transport error is surfaced.  Otherwise the signed raw
pressure is divided by the frame's scale factor and the signed raw
temperature by the fixed divisor 200, and both values are returned
together. -/
def readMeasurement (frame : List Nat) : Except SDP3XERR (ℚ × ℚ) :=
  match frame with
  | [p1, p2, pc, t1, t2, tc, s1, s2, sc] =>
    if _CRC8 (wordOf p1 p2) = pc % 256 ∧ _CRC8 (wordOf t1 t2) = tc % 256 ∧
        _CRC8 (wordOf s1 s2) = sc % 256 then
      Except.ok (((wordToInt16 (wordOf p1 p2) : Int) : ℚ) / ((wordOf s1 s2 : Nat) : ℚ),
                 ((wordToInt16 (wordOf t1 t2) : Int) : ℚ) / 200)
    else
      Except.error SDP3XERR.SDP3X_ERR_BAD_CRC
  | _ => Except.error SDP3XERR.SDP3X_ERR_I2C_ERROR

/-- Modelled from the spec: `SDP3X::readProductId`, whose body is not in
the repository sources.  After sending the two-part id-read opcode
sequence, four CRC-validated 16-bit words are read back (12 bytes); the
32-bit identity is the first word concatenated with the second.  The
identity is returned when it is one of the two recognized product ids;
zero is returned for any other value and on any CRC or transport failure
(a frame of the wrong size). -/
def readProductId (frame : List Nat) : Nat :=
  match frame with
  | [a1, a2, ac, b1, b2, bc, c1, c2, cc, d1, d2, dc] =>
    if _CRC8 (wordOf a1 a2) = ac % 256 ∧ _CRC8 (wordOf b1 b2) = bc % 256 ∧
        _CRC8 (wordOf c1 c2) = cc % 256 ∧ _CRC8 (wordOf d1 d2) = dc % 256 then
      if wordOf a1 a2 * 65536 + wordOf b1 b2 = SDP3x_product_id_SDP31 ∨
          wordOf a1 a2 * 65536 + wordOf b1 b2 = SDP3x_product_id_SDP32 then
        wordOf a1 a2 * 65536 + wordOf b1 b2
      else 0
    else 0
  | _ => 0

/-- Modelled from the spec: `SDP3X::begin`, whose body is not in the
repository sources.  Per the header, `begin` uses `readProductId` to check
the sensor is valid (`readProductId` returns zero if an error occurred);
`begin` reports success exactly when the identity read is a recognized,
non-zero one. -/
def begin (frame : List Nat) : Bool := readProductId frame ≠ 0

/-- Modelled from the spec: the opcode selection of
`SDP3X::startContinuousMeasurement(massFlow, averaging)`.  The body is not
in the repository sources; the spec says the opcode depends on
`(massFlow, averaging)` with 4 combinations, each a distinct literal
2-byte code, and the header constants name the combination each literal
belongs to (mass flow vs differential pressure, average-till-read vs no
averaging). -/
def startContinuousMeasurement (massFlow averaging : Bool) : List Nat :=
  if massFlow then
    if averaging then SDP3x_measure_continuous_mass_flow_average_till_read
    else SDP3x_measure_continuous_mass_flow_no_averaging
  else
    if averaging then SDP3x_measure_continuous_differential_pressure_average_till_read
    else SDP3x_measure_continuous_differential_pressure_no_averaging

/-- Modelled from the spec: the opcode selection of
`SDP3X::triggeredMeasurement(massFlow, clockStretching)`, analogous to
`startContinuousMeasurement`. -/
def triggeredMeasurement (massFlow clockStretching : Bool) : List Nat :=
  if massFlow then
    if clockStretching then SDP3x_measure_triggered_mass_flow_clock_stretching
    else SDP3x_measure_triggered_mass_flow_no_clock_stretching
  else
    if clockStretching then SDP3x_measure_triggered_differential_pressure_clock_stretching
    else SDP3x_measure_triggered_differential_pressure_no_clock_stretching

/-- Default-argument value `massFlow = true` declared for both
`startContinuousMeasurement` and `triggeredMeasurement` in the header. -/
def default_massFlow : Bool := true

/-- Default-argument value `averaging = false` declared for
`startContinuousMeasurement` in the header. -/
def default_averaging : Bool := false

/-- Default-argument value `clockStretching = false` declared for
`triggeredMeasurement` in the header. -/
def default_clockStretching : Bool := false

/-- `startContinuousMeasurement()` called with the mode flags omitted:
the declared default arguments are substituted. -/
def startContinuousMeasurementNoArgs : List Nat :=
  startContinuousMeasurement default_massFlow default_averaging

/-- `triggeredMeasurement()` called with the mode flags omitted:
the declared default arguments are substituted. -/
def triggeredMeasurementNoArgs : List Nat :=
  triggeredMeasurement default_massFlow default_clockStretching

/-- The driver operations that write commands to the bus. -/
inductive Operation
  | softReset
  | enterSleepMode
  | stopContinuousMeasurement
  | startContinuous (massFlow averaging : Bool)
  | triggered (massFlow clockStretching : Bool)
  | readProductIdOp
  deriving DecidableEq, Repr

/-- Modelled from the spec: the I2C write transactions (target address,
bytes) each operation issues.  Per the header, `softReset` is performed
using a general call to I2C address 0x00 followed by command code 0x06;
every other command is written to the sensor's configured address. -/
def opWrites (op : Operation) (addr : Nat) : List (Nat × List Nat) :=
  match op with
  | Operation.softReset => [(0x00, [0x06])]
  | Operation.enterSleepMode => [(addr, SDP3x_enter_sleep_mode)]
  | Operation.stopContinuousMeasurement => [(addr, SDP3x_stop_continuous_measure)]
  | Operation.startContinuous m a => [(addr, startContinuousMeasurement m a)]
  | Operation.triggered m c => [(addr, triggeredMeasurement m c)]
  | Operation.readProductIdOp =>
      [(addr, SDP3x_read_product_id_part1), (addr, SDP3x_read_product_id_part2)]

/-! ## Helper lemmas -/

set_option maxRecDepth 10000 in
/-- Each of the 256 lookup-table entries equals the result of running the
eight bit-steps of the bit-wise algorithm on its index. -/
theorem tableAt_eq_crcRound : ∀ x < 256, tableAt x = crcRound^[8] x := by decide

/-- Byte-level agreement of the two CRC variants: one table access equals
the XOR-then-8-bit-steps computation. -/
theorem crcByteLookup_eq_crcByte (r b : Nat) : crcByteLookup r b = crcByte r b := by
  unfold crcByteLookup crcByte
  exact tableAt_eq_crcRound _ (Nat.mod_lt _ (by norm_num))

/-- `readProductId` only ever returns 0 or one of the two recognized
product identities. -/
theorem readProductId_cases (frame : List Nat) :
    readProductId frame = 0 ∨ readProductId frame = SDP3x_product_id_SDP31 ∨
      readProductId frame = SDP3x_product_id_SDP32 := by
  unfold readProductId
  split
  · split
    · split
      · rename_i h
        tauto
      · left; rfl
    · left; rfl
  · left; rfl

/-- A response frame of the wrong size (a transport failure) makes
`readProductId` return the zero sentinel. -/
theorem readProductId_wrong_length (frame : List Nat) (h : frame.length ≠ 12) :
    readProductId frame = 0 := by
  unfold readProductId
  split
  · simp at h
  · rfl

/-! ## Claims -/

/-- Claim C2: for every one of the 65536 possible 16-bit input words, the
lookup-table CRC-8 implementation (256-entry table indexed by
`register XOR next_byte`) and the bit-wise CRC-8 algorithm (polynomial
0x31, initial value 0xFF, no reflection, processing the two big-endian
bytes) produce an identical 8-bit result. -/
theorem C2_crc_lookup_eq_bitwise : ∀ w < 65536, _CRC8lookup w = _CRC8bitwise w := by
  intro w _
  unfold _CRC8lookup _CRC8bitwise
  simp only [crcByteLookup_eq_crcByte]

/-- Witness for C2 at the concrete word 0xBEEF. -/
theorem C2_crc_lookup_eq_bitwise_witness :
    48879 < 65536 ∧ _CRC8lookup 48879 = _CRC8bitwise 48879 :=
  ⟨by decide, C2_crc_lookup_eq_bitwise 48879 (by decide)⟩

/-- Claim C3: the CRC-8 of the word 0xBEEF (big-endian bytes {0xBE, 0xEF})
is exactly 0x92. -/
theorem C3_crc_beef : _CRC8 0xBEEF = 0x92 := by decide

/-- Claim C4: the signed entry point `_CRC8signed` applied to an int16 and
the unsigned entry point `_CRC8` applied to the uint16 with the same
underlying bit pattern return byte-identical CRC-8 results. -/
theorem C4_crc_signed_eq_unsigned :
    ∀ w < 65536, _CRC8signed (wordToInt16 w) = _CRC8 w := by
  intro w hw
  unfold _CRC8signed
  congr 1
  unfold toUInt16bits wordToInt16
  split <;> omega

/-- Witness for C4 at the pattern 40000 (a negative int16, −25536). -/
theorem C4_crc_signed_eq_unsigned_witness :
    40000 < 65536 ∧ _CRC8signed (wordToInt16 40000) = _CRC8 40000 :=
  ⟨by decide, C4_crc_signed_eq_unsigned 40000 (by decide)⟩

/-- Claim C1 counterexample: the continuous-measurement encoding for
(massFlow = true, averaging = false) is the no-averaging opcode
{0x36, 0x08}, not the literal pair {0x36, 0x03} the claim states (that
literal is the averaging-till-read constant). -/
theorem C1_continuous_opcode_counterexample :
    startContinuousMeasurement true false = [0x36, 0x08] ∧
    startContinuousMeasurement true false ≠ [0x36, 0x03] := by decide

/-- Claim C1 (amended): the continuous-measurement command encoder maps
each (massFlow, averaging) combination to its fixed 2-byte opcode
constant: (true, true) ↦ {0x36, 0x03}, (true, false) ↦ {0x36, 0x08},
(false, true) ↦ {0x36, 0x15}, (false, false) ↦ {0x36, 0x1E}. -/
theorem C1_continuous_opcodes_amended :
    startContinuousMeasurement true true =
        SDP3x_measure_continuous_mass_flow_average_till_read ∧
    startContinuousMeasurement true true = [0x36, 0x03] ∧
    startContinuousMeasurement true false =
        SDP3x_measure_continuous_mass_flow_no_averaging ∧
    startContinuousMeasurement true false = [0x36, 0x08] ∧
    startContinuousMeasurement false true =
        SDP3x_measure_continuous_differential_pressure_average_till_read ∧
    startContinuousMeasurement false true = [0x36, 0x15] ∧
    startContinuousMeasurement false false =
        SDP3x_measure_continuous_differential_pressure_no_averaging ∧
    startContinuousMeasurement false false = [0x36, 0x1E] := by decide

/-- Claim C5: whenever any word's CRC check fails, `readMeasurement`
returns `SDP3X_ERR_BAD_CRC` and produces neither a pressure nor a
temperature output; the pair of physical values is produced only when
every word's CRC passes. -/
theorem C5_readMeasurement_atomic (p1 p2 pc t1 t2 tc s1 s2 sc : Nat) :
    (¬(_CRC8 (wordOf p1 p2) = pc % 256 ∧ _CRC8 (wordOf t1 t2) = tc % 256 ∧
        _CRC8 (wordOf s1 s2) = sc % 256) →
      readMeasurement [p1, p2, pc, t1, t2, tc, s1, s2, sc] =
        Except.error SDP3XERR.SDP3X_ERR_BAD_CRC) ∧
    (∀ v, readMeasurement [p1, p2, pc, t1, t2, tc, s1, s2, sc] = Except.ok v →
      _CRC8 (wordOf p1 p2) = pc % 256 ∧ _CRC8 (wordOf t1 t2) = tc % 256 ∧
        _CRC8 (wordOf s1 s2) = sc % 256) := by
  constructor
  · intro h
    simp only [readMeasurement]
    rw [if_neg h]
  · intro v hv
    by_contra h
    simp only [readMeasurement] at hv
    rw [if_neg h] at hv
    exact absurd hv (by simp)

/-- Witness for C5: a frame whose final CRC byte is corrupted (off by
one) yields `SDP3X_ERR_BAD_CRC`. -/
theorem C5_readMeasurement_atomic_witness :
    readMeasurement [4, 176, _CRC8 (wordOf 4 176), 7, 208, _CRC8 (wordOf 7 208),
        0, 120, (_CRC8 (wordOf 0 120) + 1) % 256] =
      Except.error SDP3XERR.SDP3X_ERR_BAD_CRC :=
  (C5_readMeasurement_atomic 4 176 (_CRC8 (wordOf 4 176)) 7 208 (_CRC8 (wordOf 7 208))
    0 120 ((_CRC8 (wordOf 0 120) + 1) % 256)).1 (by decide)

/-- Claim C6: `readProductId` returns the decoded 32-bit identity exactly
when it is one of the two recognized identities, and the zero sentinel
for any other decoded value, for any CRC failure, and for a transport
failure (a frame of the wrong size). -/
theorem C6_readProductId_sentinel :
    (∀ a1 a2 ac b1 b2 bc c1 c2 cc d1 d2 dc : Nat,
      ((_CRC8 (wordOf a1 a2) = ac % 256 ∧ _CRC8 (wordOf b1 b2) = bc % 256 ∧
          _CRC8 (wordOf c1 c2) = cc % 256 ∧ _CRC8 (wordOf d1 d2) = dc % 256) →
        ((wordOf a1 a2 * 65536 + wordOf b1 b2 = SDP3x_product_id_SDP31 ∨
            wordOf a1 a2 * 65536 + wordOf b1 b2 = SDP3x_product_id_SDP32) →
          readProductId [a1, a2, ac, b1, b2, bc, c1, c2, cc, d1, d2, dc] =
            wordOf a1 a2 * 65536 + wordOf b1 b2) ∧
        (¬(wordOf a1 a2 * 65536 + wordOf b1 b2 = SDP3x_product_id_SDP31 ∨
            wordOf a1 a2 * 65536 + wordOf b1 b2 = SDP3x_product_id_SDP32) →
          readProductId [a1, a2, ac, b1, b2, bc, c1, c2, cc, d1, d2, dc] = 0)) ∧
      (¬(_CRC8 (wordOf a1 a2) = ac % 256 ∧ _CRC8 (wordOf b1 b2) = bc % 256 ∧
          _CRC8 (wordOf c1 c2) = cc % 256 ∧ _CRC8 (wordOf d1 d2) = dc % 256) →
        readProductId [a1, a2, ac, b1, b2, bc, c1, c2, cc, d1, d2, dc] = 0)) ∧
    (∀ frame : List Nat, frame.length ≠ 12 → readProductId frame = 0) := by
  constructor
  · intro a1 a2 ac b1 b2 bc c1 c2 cc d1 d2 dc
    constructor
    · intro hcrc
      constructor
      · intro hid
        simp only [readProductId]
        rw [if_pos hcrc, if_pos hid]
      · intro hid
        simp only [readProductId]
        rw [if_pos hcrc, if_neg hid]
    · intro hcrc
      simp only [readProductId]
      rw [if_neg hcrc]
  · exact readProductId_wrong_length

/-- Witness for C6: a well-formed frame carrying the SDP31 identity
0x03010101 decodes to that identity. -/
theorem C6_readProductId_sentinel_witness :
    readProductId [3, 1, _CRC8 (wordOf 3 1), 1, 1, _CRC8 (wordOf 1 1),
        0, 0, _CRC8 0, 0, 0, _CRC8 0] = 0x03010101 :=
  ((C6_readProductId_sentinel.1 3 1 (_CRC8 (wordOf 3 1)) 1 1 (_CRC8 (wordOf 1 1))
    0 0 (_CRC8 0) 0 0 (_CRC8 0)).1 (by decide)).1 (by decide)

/-- Claim C7: when every word's CRC passes, `readMeasurement` converts by
dividing the signed raw pressure word by the frame's scale factor and the
signed raw temperature word by the fixed divisor 200. -/
theorem C7_readMeasurement_conversion (p1 p2 pc t1 t2 tc s1 s2 sc : Nat)
    (hp : _CRC8 (wordOf p1 p2) = pc % 256) (ht : _CRC8 (wordOf t1 t2) = tc % 256)
    (hs : _CRC8 (wordOf s1 s2) = sc % 256) :
    readMeasurement [p1, p2, pc, t1, t2, tc, s1, s2, sc] =
      Except.ok (((wordToInt16 (wordOf p1 p2) : Int) : ℚ) / ((wordOf s1 s2 : Nat) : ℚ),
                 ((wordToInt16 (wordOf t1 t2) : Int) : ℚ) / 200) := by
  simp only [readMeasurement]
  rw [if_pos ⟨hp, ht, hs⟩]

/-- Witness for C7: raw pressure 1200 with scale factor 120 converts to
physical pressure 10, and raw temperature 2000 converts to physical
temperature 10. -/
theorem C7_readMeasurement_conversion_witness :
    readMeasurement [4, 176, _CRC8 1200, 7, 208, _CRC8 2000, 0, 120, _CRC8 120] =
      Except.ok ((10 : ℚ), (10 : ℚ)) := by
  rw [C7_readMeasurement_conversion 4 176 (_CRC8 1200) 7 208 (_CRC8 2000) 0 120 (_CRC8 120)
    (by decide) (by decide) (by decide)]
  norm_num [wordToInt16, wordOf]

/-- Claim C8: `softReset` is the only operation whose bus write targets
the I2C general-call address 0x00 (followed by the reset command byte);
every other command is written to the configured sensor address. -/
theorem C8_softReset_general_call (op : Operation) (addr : Nat) (h : addr ≠ 0) :
    ((∃ w ∈ opWrites op addr, w.1 = 0) ↔ op = Operation.softReset) ∧
    (op ≠ Operation.softReset → ∀ w ∈ opWrites op addr, w.1 = addr) := by
  cases op <;> simp [opWrites, h]

/-- Witness for C8 at the default sensor address 0x21: `softReset` does
target the general-call address there. -/
theorem C8_softReset_general_call_witness :
    (∃ w ∈ opWrites Operation.softReset SDP3x_default_i2c_address, w.1 = 0) ↔
      Operation.softReset = Operation.softReset :=
  (C8_softReset_general_call Operation.softReset SDP3x_default_i2c_address (by decide)).1

/-- Claim C9: `begin` validates the sensor through `readProductId` and
succeeds exactly when the identity read is one of the two recognized
product identities; when `readProductId` yields the zero sentinel,
`begin` returns false. -/
theorem C9_begin_validates (frame : List Nat) :
    (begin frame = true ↔ (readProductId frame = SDP3x_product_id_SDP31 ∨
        readProductId frame = SDP3x_product_id_SDP32)) ∧
    (readProductId frame = 0 → begin frame = false) := by
  have h := readProductId_cases frame
  constructor
  · simp only [begin, ne_eq, decide_eq_true_eq]
    constructor
    · intro hne
      rcases h with h | h | h
      · exact absurd h hne
      · exact Or.inl h
      · exact Or.inr h
    · intro hor
      rcases hor with h1 | h1 <;> rw [h1] <;> decide
  · intro h0
    simp [begin, h0]

/-- Witness for C9: an empty response frame (transport failure) makes
`readProductId` return 0 and `begin` fail. -/
theorem C9_begin_validates_witness : begin [] = false :=
  (C9_begin_validates []).2 (by rfl)

/-- Claim C10: with the mode flags omitted, `startContinuousMeasurement`
defaults to massFlow = true and averaging = false, and
`triggeredMeasurement` defaults to massFlow = true and
clockStretching = false: the no-argument calls encode exactly the same
opcodes as the calls with those explicit flag values. -/
theorem C10_default_arguments :
    default_massFlow = true ∧ default_averaging = false ∧
    default_clockStretching = false ∧
    startContinuousMeasurementNoArgs = startContinuousMeasurement true false ∧
    triggeredMeasurementNoArgs = triggeredMeasurement true false := by
  refine ⟨rfl, rfl, rfl, rfl, rfl⟩
